import Mathlib

/-!
Verification of the `openlist` client core.

Shallow embedding of the `openlist` Python client library
(session/authentication layer, request dispatch, and the file-system
resource service) together with proofs of the specification claims.

Conventions of the embedding:
* JSON values are modelled by the inductive type `JVal`; HTTP responses by
  `HttpResponse` (status code plus parsed JSON body); outgoing requests by
  `HttpRequest`.
* Raised Python exceptions become the error side of `Except` with the error
  taxonomy `Err` mirroring the library's exception classes
  (`AuthenticationFailed`, `UnexceptedResponseCode`, `BadResponse`,
  `MalformedToken`); `Err.pyError` stands for a raw Python runtime error
  (`AttributeError`/`TypeError` escaping from the library's own code paths,
  e.g. `dict.get` called on a non-dict body).
* The source mixes `async` methods with a synchronous `httpx.Client`; per the
  specification's concurrency section a single consistent execution mode is
  assumed, so every network call is modelled as run to completion.  A
  function that may perform a network call takes the would-be response as an
  explicit argument and reports the list of requests it actually issued.
-/

set_option autoImplicit false

namespace Openlist

/-- A parsed JSON value (the result of `response.json()`).  Numbers are
integers, which covers every field this API uses. -/
inductive JVal where
  | null : JVal
  | bool (b : Bool) : JVal
  | num (n : Int) : JVal
  | str (s : String) : JVal
  | arr (elems : List JVal) : JVal
  | obj (fields : List (String × JVal)) : JVal
  deriving Repr

/-- The library's exception taxonomy.  `authenticationFailed`,
`unexceptedResponseCode` (the source's spelling) and `badResponse` are the
classes of `openlist/exceptions.py`, raised with the message value shown at
each raise site; `malformedToken` is the token-decode failure of the Token
Codec; `pyError` stands for an uncaught Python runtime error
(`AttributeError`/`TypeError`/pydantic `ValidationError`). -/
inductive Err where
  | authenticationFailed (msg : JVal) : Err
  | unexceptedResponseCode (status : Nat) (msg : JVal) : Err
  | badResponse (msg : JVal) : Err
  | malformedToken : Err
  | pyError : Err
  deriving Repr

/-- An HTTP response as the client sees it: status code and parsed JSON body. -/
structure HttpResponse where
  status : Nat
  body : JVal
  deriving Repr

/-- An outgoing HTTP request built by the client. -/
structure HttpRequest where
  method : String
  path : String
  headers : List (String × String)
  jsonBody : Option JVal
  deriving Repr

/-- The session context (`openlist/context.py`): base URL and the stored
auth token.  The token field holds whatever JSON value the login response's
`data.token` contained (`None` initially); the HTTP client handle and the
unused `auth_method`/`auth_params` fields are not modelled. -/
structure Context where
  base_url : String
  auth_token : Option JVal
  deriving Repr

/-- First binding of key `k` in a JSON object's field list (Python dicts
cannot hold duplicate keys, so first-match is exact). -/
def jfind (fields : List (String × JVal)) (k : String) : Option JVal :=
  match fields with
  | [] => none
  | (k', v) :: rest => if k' = k then some v else jfind rest k

/-- Python `d.get(k, default)` on a JSON object's field list. -/
def jgetD (fields : List (String × JVal)) (k : String) (d : JVal) : JVal :=
  match jfind fields k with
  | some v => v
  | none => d

/-- Python `body.get("message", "Unknown error")` as it appears at the
error-raise sites: succeeds on a dict body, raises `AttributeError`
(modelled as `Err.pyError`) on any non-dict body. -/
def msgOf (body : JVal) : Except Err JVal :=
  match body with
  | .obj fields => .ok (jgetD fields "message" (.str "Unknown error"))
  | _ => .error .pyError

/-- Python `body[k]`: `KeyError` on a dict without the key, `TypeError` on a
non-dict.  Both failure kinds land in the same `except (KeyError, TypeError)`
handlers of the source, so the error carries no further detail. -/
def pyIndex (body : JVal) (k : String) : Except Unit JVal :=
  match body with
  | .obj fields =>
    match jfind fields k with
    | some v => .ok v
    | none => .error ()
  | _ => .error ()

/-- Python truthiness of a JSON value (`if not self.context.auth_token`). -/
def pyTruthy (v : JVal) : Bool :=
  match v with
  | .null => false
  | .bool b => b
  | .num n => n != 0
  | .str s => s != ""
  | .arr elems => !elems.isEmpty
  | .obj fields => !fields.isEmpty

/-! ## posixpath primitives

`FileSystem.remove` and the CLI path helper use `posixpath.basename`,
`posixpath.dirname`, `posixpath.join` and `posixpath.normpath`.  These are
embedded following CPython's `posixpath.py`, operating on the character
list of the string so that everything reduces in the kernel. -/

/-- Index one past the last `'/'` of the string, `0` if there is none
(CPython `p.rfind('/') + 1`). -/
def lastSlashEnd (cs : List Char) : Nat :=
  match cs with
  | [] => 0
  | c :: rest =>
    let r := lastSlashEnd rest
    if r = 0 then (if c = '/' then 1 else 0) else r + 1

/-- Embeds `posixpath.basename`: everything after the final `'/'`. -/
def posixBasename (p : String) : String :=
  String.mk (p.data.drop (lastSlashEnd p.data))

/-- Drop trailing `'/'` characters (CPython `head.rstrip('/')`). -/
def dropTrailingSlashes (cs : List Char) : List Char :=
  (cs.reverse.dropWhile (· = '/')).reverse

/-- Embeds `posixpath.dirname`: the part before the final `'/'`, with trailing
slashes stripped unless the head consists only of slashes. -/
def posixDirname (p : String) : String :=
  let head := p.data.take (lastSlashEnd p.data)
  if head ≠ [] ∧ ¬ (head.all (· = '/')) then
    String.mk (dropTrailingSlashes head)
  else
    String.mk head

/-! ## SHA-256

`Authentication.login` hashes the password with `hashlib.sha256`.  The
algorithm is embedded over `Nat` with explicit reduction modulo `2^32`;
bytes are `Nat` values below `256`. -/

/-- Addition of two 32-bit words, reduced modulo `2^32`. -/
def add32 (a b : Nat) : Nat := (a + b) % 4294967296

/-- Bitwise complement within 32 bits. -/
def not32 (a : Nat) : Nat := Nat.xor a 4294967295

/-- Right rotation of a 32-bit word by `n` places (`0 < n < 32`). -/
def rotr32 (n a : Nat) : Nat := Nat.lor (a >>> n) ((a <<< (32 - n)) % 4294967296)

/-- SHA-256 `Ch(x, y, z)`. -/
def shaCh (x y z : Nat) : Nat := Nat.xor (Nat.land x y) (Nat.land (not32 x) z)

/-- SHA-256 `Maj(x, y, z)`. -/
def shaMaj (x y z : Nat) : Nat :=
  Nat.xor (Nat.xor (Nat.land x y) (Nat.land x z)) (Nat.land y z)

/-- SHA-256 `Σ0`. -/
def bigSigma0 (x : Nat) : Nat := Nat.xor (Nat.xor (rotr32 2 x) (rotr32 13 x)) (rotr32 22 x)

/-- SHA-256 `Σ1`. -/
def bigSigma1 (x : Nat) : Nat := Nat.xor (Nat.xor (rotr32 6 x) (rotr32 11 x)) (rotr32 25 x)

/-- SHA-256 `σ0`. -/
def smallSigma0 (x : Nat) : Nat := Nat.xor (Nat.xor (rotr32 7 x) (rotr32 18 x)) (x >>> 3)

/-- SHA-256 `σ1`. -/
def smallSigma1 (x : Nat) : Nat := Nat.xor (Nat.xor (rotr32 17 x) (rotr32 19 x)) (x >>> 10)

/-- The 64 SHA-256 round constants (FIPS 180-4 §4.2.2, written in
decimal). -/
def shaK : List Nat :=
  [1116352408, 1899447441, 3049323471, 3921009573,
   961987163, 1508970993, 2453635748, 2870763221,
   3624381080, 310598401, 607225278, 1426881987,
   1925078388, 2162078206, 2614888103, 3248222580,
   3835390401, 4022224774, 264347078, 604807628,
   770255983, 1249150122, 1555081692, 1996064986,
   2554220882, 2821834349, 2952996808, 3210313671,
   3336571891, 3584528711, 113926993, 338241895,
   666307205, 773529912, 1294757372, 1396182291,
   1695183700, 1986661051, 2177026350, 2456956037,
   2730485921, 2820302411, 3259730800, 3345764771,
   3516065817, 3600352804, 4094571909, 275423344,
   430227734, 506948616, 659060556, 883997877,
   958139571, 1322822218, 1537002063, 1747873779,
   1955562222, 2024104815, 2227730452, 2361852424,
   2428436474, 2756734187, 3204031479, 3329325298]

/-- Big-endian bytes of the 64-bit message length in bits. -/
def lenBytes64 (bitLen : Nat) : List Nat :=
  [(bitLen >>> 56) % 256, (bitLen >>> 48) % 256, (bitLen >>> 40) % 256, (bitLen >>> 32) % 256,
   (bitLen >>> 24) % 256, (bitLen >>> 16) % 256, (bitLen >>> 8) % 256, bitLen % 256]

/-- SHA-256 padding: append `0x80`, zero bytes up to 56 mod 64, then the
bit length as 8 big-endian bytes. -/
def padMessage (msg : List Nat) : List Nat :=
  msg ++ [128] ++ List.replicate ((119 - msg.length % 64) % 64) 0 ++ lenBytes64 (8 * msg.length)

/-- Split a byte list into blocks of 64, with explicit fuel so that the
definition is structural and kernel-reducible. -/
def chunks64 : Nat → List Nat → List (List Nat)
  | 0, _ => []
  | _, [] => []
  | fuel + 1, l => l.take 64 :: chunks64 fuel (l.drop 64)

/-- Big-endian 32-bit words from a byte list. -/
def bytesToWords : List Nat → List Nat
  | b0 :: b1 :: b2 :: b3 :: rest =>
    (((b0 * 256 + b1) * 256 + b2) * 256 + b3) :: bytesToWords rest
  | _ => []

/-- One message-schedule extension step: append `W[t]` computed from the
last 16 entries. -/
def schedStep (w : List Nat) : List Nat :=
  let n := w.length
  w ++ [add32 (add32 (smallSigma1 (w.getD (n - 2) 0)) (w.getD (n - 7) 0))
             (add32 (smallSigma0 (w.getD (n - 15) 0)) (w.getD (n - 16) 0))]

/-- Iterate the schedule extension `k` times. -/
def schedIter : Nat → List Nat → List Nat
  | 0, w => w
  | k + 1, w => schedIter k (schedStep w)

/-- The eight 32-bit working variables / hash state. -/
structure Hash8 where
  a : Nat
  b : Nat
  c : Nat
  d : Nat
  e : Nat
  f : Nat
  g : Nat
  h : Nat
  deriving Repr

/-- One SHA-256 round, consuming a `(K[t], W[t])` pair. -/
def shaRound (st : Hash8) (kw : Nat × Nat) : Hash8 :=
  let t1 := add32 st.h (add32 (bigSigma1 st.e) (add32 (shaCh st.e st.f st.g) (add32 kw.1 kw.2)))
  let t2 := add32 (bigSigma0 st.a) (shaMaj st.a st.b st.c)
  ⟨add32 t1 t2, st.a, st.b, st.c, add32 st.d t1, st.e, st.f, st.g⟩

/-- Compress one 64-byte block into the running hash state. -/
def compressBlock (h0 : Hash8) (block : List Nat) : Hash8 :=
  let w := schedIter 48 (bytesToWords block)
  let st := (shaK.zip w).foldl shaRound h0
  ⟨add32 h0.a st.a, add32 h0.b st.b, add32 h0.c st.c, add32 h0.d st.d,
   add32 h0.e st.e, add32 h0.f st.f, add32 h0.g st.g, add32 h0.h st.h⟩

/-- SHA-256 initial hash value (FIPS 180-4 §5.3.3, written in decimal). -/
def initH : Hash8 :=
  ⟨1779033703, 3144134277, 1013904242, 2773480762,
   1359893119, 2600822924, 528734635, 1541459225⟩

/-- The eight 32-bit words of the SHA-256 digest of a byte list. -/
def sha256Words (msg : List Nat) : List Nat :=
  let padded := padMessage msg
  let fin := (chunks64 padded.length padded).foldl compressBlock initH
  [fin.a, fin.b, fin.c, fin.d, fin.e, fin.f, fin.g, fin.h]

/-- Lowercase hexadecimal digit for a value below 16. -/
def hexDigit : Nat → Char
  | 0 => '0' | 1 => '1' | 2 => '2' | 3 => '3' | 4 => '4' | 5 => '5' | 6 => '6' | 7 => '7'
  | 8 => '8' | 9 => '9' | 10 => 'a' | 11 => 'b' | 12 => 'c' | 13 => 'd' | 14 => 'e' | _ => 'f'

/-- Eight lowercase hex characters of a 32-bit word, most significant first. -/
def wordHex (w : Nat) : List Char :=
  [hexDigit ((w >>> 28) % 16), hexDigit ((w >>> 24) % 16), hexDigit ((w >>> 20) % 16),
   hexDigit ((w >>> 16) % 16), hexDigit ((w >>> 12) % 16), hexDigit ((w >>> 8) % 16),
   hexDigit ((w >>> 4) % 16), hexDigit (w % 16)]

/-- Embeds `hashlib.sha256(...).hexdigest()`: lowercase hex string of the digest. -/
def sha256Hex (msg : List Nat) : String :=
  String.mk ((sha256Words msg).foldr (fun w acc => wordHex w ++ acc) [])

/-- UTF-8 encoding of one character. -/
def utf8Char (c : Char) : List Nat :=
  let n := c.toNat
  if n < 128 then [n]
  else if n < 2048 then [192 + n / 64, 128 + n % 64]
  else if n < 65536 then [224 + n / 4096, 128 + (n / 64) % 64, 128 + n % 64]
  else [240 + n / 262144, 128 + (n / 4096) % 64, 128 + (n / 64) % 64, 128 + n % 64]

/-- Python `s.encode()`: UTF-8 bytes of a string. -/
def utf8Bytes (s : String) : List Nat :=
  s.data.foldr (fun c acc => utf8Char c ++ acc) []

/-- The fixed salt baked into `Authentication.login`. -/
def STATIC_HASH_SALT : String := "https://github.com/alist-org/alist"

/-- The hashed password `Authentication.login` puts into the login payload:
hex SHA-256 of the UTF-8 bytes of `password + "-" + STATIC_HASH_SALT`. -/
def hashedPassword (password : String) : String :=
  sha256Hex (utf8Bytes (password ++ "-" ++ STATIC_HASH_SALT))

/-! ## String helpers

Kernel-reducible counterparts of the Python string operations used by the
source (`split`, `startswith`, `endswith`, `lower`, `in`). -/

/-- Python `s.split(sep)` for a one-character separator: always returns at
least one (possibly empty) piece. -/
def splitCharsOn (sep : Char) : List Char → List (List Char)
  | [] => [[]]
  | c :: rest =>
    match splitCharsOn sep rest with
    | [] => [[]]
    | g :: gs => if c = sep then [] :: g :: gs else (c :: g) :: gs

/-- Python `s.startswith(p)`. -/
def strStarts (s p : String) : Bool := p.data.isPrefixOf s.data

/-- Python `s.endswith(p)`. -/
def strEnds (s p : String) : Bool := p.data.reverse.isPrefixOf s.data.reverse

/-- Python `s.lower()` (ASCII range, which is all this client compares). -/
def strLower (s : String) : String := String.mk (s.data.map Char.toLower)

/-- Substring occurrence on character lists (Python `sub in s`). -/
def charsContain (sub : List Char) : List Char → Bool
  | [] => sub.isEmpty
  | c :: rest => sub.isPrefixOf (c :: rest) || charsContain sub rest

/-- Python `sub in s`. -/
def strContains (s sub : String) : Bool := charsContain sub.data s.data

/-! ## Token Codec

`openlist/utils.py` (`decode_token`) is imported by the session and admin
code but is not among the sources; it is modelled from the specification's
Token Codec contract. -/

/-- The decoded JWT claim set (`TokenPayload` of src/openlist/data_types.py). -/
structure TokenPayload where
  exp : Int
  iat : Int
  nbf : Int
  username : String
  pwd_ts : Int
  deriving Repr

/-- Value of one base64url alphabet character. -/
def b64urlVal (c : Char) : Option Nat :=
  if 'A' ≤ c ∧ c ≤ 'Z' then some (c.toNat - 65)
  else if 'a' ≤ c ∧ c ≤ 'z' then some (c.toNat - 97 + 26)
  else if '0' ≤ c ∧ c ≤ '9' then some (c.toNat - 48 + 52)
  else if c = '-' then some 62
  else if c = '_' then some 63
  else none

/-- base64url decoding of a character list (without padding characters):
groups of four characters yield three bytes; a trailing group of two or
three characters yields one or two bytes; a trailing single character is
invalid. -/
def b64DecodeChars : List Char → Option (List Nat)
  | [] => some []
  | [c1, c2] => do
    let v1 ← b64urlVal c1
    let v2 ← b64urlVal c2
    some [v1 * 4 + v2 / 16]
  | [c1, c2, c3] => do
    let v1 ← b64urlVal c1
    let v2 ← b64urlVal c2
    let v3 ← b64urlVal c3
    some [v1 * 4 + v2 / 16, (v2 % 16) * 16 + v3 / 4]
  | c1 :: c2 :: c3 :: c4 :: rest => do
    let v1 ← b64urlVal c1
    let v2 ← b64urlVal c2
    let v3 ← b64urlVal c3
    let v4 ← b64urlVal c4
    let tail ← b64DecodeChars rest
    some ([v1 * 4 + v2 / 16, (v2 % 16) * 16 + v3 / 4, (v3 % 4) * 64 + v4] ++ tail)
  | [_] => none

/-- base64url decoding of a string, tolerating trailing `'='` padding. -/
def base64urlDecode (cs : List Char) : Option (List Nat) :=
  b64DecodeChars (cs.filter (· ≠ '='))

/-! ### Minimal JSON parser

Used only by the Token Codec to parse the decoded claim segment.  Written
with an explicit fuel argument so that the recursion is structural and
evaluates inside the kernel. -/

/-- Skip JSON whitespace. -/
def skipWs (cs : List Char) : List Char :=
  cs.dropWhile (fun c => c = ' ' ∨ c = '\t' ∨ c = '\n' ∨ c = '\r')

/-- Consume an expected literal tail, or fail. -/
def matchLit (lit cs : List Char) : Option (List Char) :=
  if lit.isPrefixOf cs then some (cs.drop lit.length) else none

/-- Value of one hexadecimal digit character. -/
def hexVal (c : Char) : Option Nat :=
  if '0' ≤ c ∧ c ≤ '9' then some (c.toNat - 48)
  else if 'a' ≤ c ∧ c ≤ 'f' then some (c.toNat - 97 + 10)
  else if 'A' ≤ c ∧ c ≤ 'F' then some (c.toNat - 65 + 10)
  else none

/-- Translation table for the single-character JSON escapes (the control
characters are written via their code points). -/
def escPairs : List (Char × Char) :=
  [('"', '"'), ('\\', '\\'), ('/', '/'),
   ('n', Char.ofNat 10), ('t', Char.ofNat 9), ('r', Char.ofNat 13),
   ('b', Char.ofNat 8), ('f', Char.ofNat 12)]

/-- Look an escape character up in the translation table. -/
def escLookup : List (Char × Char) → Char → Option Char
  | [], _ => none
  | (k, v) :: rest, c => if k = c then some v else escLookup rest c

/-- Parse the body of a JSON string literal (after the opening quote),
returning the decoded characters and the remaining input. -/
def parseStrChars : List Char → Option (List Char × List Char)
  | [] => none
  | '"' :: rest => some ([], rest)
  | '\\' :: 'u' :: rest =>
    (match rest with
     | h1 :: h2 :: h3 :: h4 :: rest2 => do
       let v1 ← hexVal h1
       let v2 ← hexVal h2
       let v3 ← hexVal h3
       let v4 ← hexVal h4
       let (s, r) ← parseStrChars rest2
       some (Char.ofNat (((v1 * 16 + v2) * 16 + v3) * 16 + v4) :: s, r)
     | _ => none)
  | '\\' :: e :: rest => do
    let c ← escLookup escPairs e
    let (s, r) ← parseStrChars rest
    some (c :: s, r)
  | c :: rest => do
    let (s, r) ← parseStrChars rest
    some (c :: s, r)

/-- Parse a nonempty run of decimal digits. -/
def parseDigits (cs : List Char) : Option (Nat × List Char) :=
  let digits := cs.takeWhile Char.isDigit
  if digits.isEmpty then none
  else some (digits.foldl (fun acc c => acc * 10 + (c.toNat - 48)) 0, cs.dropWhile Char.isDigit)

/-- Parse a JSON integer (an optional minus sign and digits). -/
def parseIntLit (cs : List Char) : Option (JVal × List Char) :=
  match cs with
  | '-' :: rest => (parseDigits rest).map (fun p => (.num (-(p.1 : Int)), p.2))
  | _ => (parseDigits cs).map (fun p => (.num (p.1 : Int), p.2))

/-- Parser mode: a top-level value, the items of an array being
accumulated, or the fields of an object being accumulated. -/
inductive PMode where
  | top : PMode
  | arrItems (acc : List JVal) : PMode
  | objItems (acc : List (String × JVal)) : PMode

/-- One fueled recursive-descent JSON parse step. -/
def parseStep : Nat → PMode → List Char → Option (JVal × List Char)
  | 0, _, _ => none
  | fuel + 1, .top, cs =>
    match skipWs cs with
    | [] => none
    | c :: rest =>
      if c = 'n' then (matchLit ['u', 'l', 'l'] rest).map (fun r => (.null, r))
      else if c = 't' then (matchLit ['r', 'u', 'e'] rest).map (fun r => (.bool true, r))
      else if c = 'f' then (matchLit ['a', 'l', 's', 'e'] rest).map (fun r => (.bool false, r))
      else if c = '"' then (parseStrChars rest).map (fun p => (.str (String.mk p.1), p.2))
      else if c = '[' then
        match skipWs rest with
        | ']' :: r2 => some (.arr [], r2)
        | r2 => parseStep fuel (.arrItems []) r2
      else if c = '\x7b' then
        match skipWs rest with
        | '\x7d' :: r2 => some (.obj [], r2)
        | r2 => parseStep fuel (.objItems []) r2
      else parseIntLit (c :: rest)
  | fuel + 1, .arrItems acc, cs => do
    let (v, r) ← parseStep fuel .top cs
    match skipWs r with
    | ',' :: r2 => parseStep fuel (.arrItems (acc ++ [v])) r2
    | ']' :: r2 => some (.arr (acc ++ [v]), r2)
    | _ => none
  | fuel + 1, .objItems acc, cs =>
    match skipWs cs with
    | '"' :: r => do
      let (k, r2) ← parseStrChars r
      match skipWs r2 with
      | ':' :: r3 => do
        let (v, r4) ← parseStep fuel .top r3
        match skipWs r4 with
        | ',' :: r5 => parseStep fuel (.objItems (acc ++ [(String.mk k, v)])) r5
        | '\x7d' :: r5 => some (.obj (acc ++ [(String.mk k, v)]), r5)
        | _ => none
      | _ => none
    | _ => none

/-- Python `json.loads` on the claim text: a full parse consuming the whole
input (up to trailing whitespace). -/
def parseJson (s : String) : Option JVal :=
  match parseStep (4 * (s.data.length + 2)) .top s.data with
  | some (v, rest) => if (skipWs rest).isEmpty then some v else none
  | none => none

/-- Integer field of a JSON object. -/
def getIntField (fields : List (String × JVal)) (k : String) : Option Int :=
  match jfind fields k with
  | some (.num n) => some n
  | _ => none

/-- String field of a JSON object. -/
def getStrField (fields : List (String × JVal)) (k : String) : Option String :=
  match jfind fields k with
  | some (.str s) => some s
  | _ => none

/-- The claim set of `data_types.TokenPayload` read off a parsed JSON value. -/
def parseTokenPayload (v : JVal) : Option TokenPayload :=
  match v with
  | .obj fields => do
    let e ← getIntField fields "exp"
    let i ← getIntField fields "iat"
    let n ← getIntField fields "nbf"
    let u ← getStrField fields "username"
    let p ← getIntField fields "pwd_ts"
    some ⟨e, i, n, u, p⟩
  | _ => none

/-- Modelled from the spec: `decode_token` of `openlist/utils.py`, which is
imported by the session and admin code but absent from the sources.  Per the
specification's Token Codec contract it splits the token into three
dot-separated segments, base64url-decodes the middle segment, parses it as
the JSON claim set, and fails with `MalformedToken` when the token lacks
three segments or the middle segment is not valid base64/JSON.  (The claim
text is treated as ASCII, which covers every claim set considered here.) -/
def decodeToken (t : String) : Except Err TokenPayload :=
  match splitCharsOn '.' t.data with
  | [_, mid, _] =>
    match base64urlDecode mid with
    | some bytes =>
      match parseJson (String.mk (bytes.map Char.ofNat)) with
      | some v =>
        match parseTokenPayload v with
        | some pl => .ok pl
        | none => .error .malformedToken
      | none => .error .malformedToken
    | none => .error .malformedToken
  | _ => .error .malformedToken

/-! ## Session / Authentication (src/openlist/core/authentication.py) -/

/-- The JSON body `Authentication.login` POSTs to `/api/auth/login/hash`. -/
structure LoginPayload where
  username : String
  password : String
  otp_code : Option String
  deriving Repr

/-- The login payload as built by `Authentication.login`: the password is
replaced by `hashedPassword`; the TOTP code (computed by `pyotp` from the
wall clock when an OTP secret is given, `None` otherwise) enters as
`otpCode`. -/
def loginPayload (username password : String) (otpCode : Option String) : LoginPayload :=
  { username := username, password := hashedPassword password, otp_code := otpCode }

/-- JSON rendering of the login payload dict. -/
def loginPayloadJson (p : LoginPayload) : JVal :=
  .obj [("username", .str p.username), ("password", .str p.password),
        ("otp_code", match p.otp_code with | some s => .str s | none => .null)]

/-- The request `Authentication.login` issues. -/
def loginRequest (username password : String) (otpCode : Option String) : HttpRequest :=
  { method := "POST", path := "/api/auth/login/hash",
    headers := [("Content-Type", "application/json")],
    jsonBody := some (loginPayloadJson (loginPayload username password otpCode)) }

/-- Python `response.json()["data"]["token"]`: the two subscripts whose
`KeyError`/`TypeError` the login code catches. -/
def tokenLookup (body : JVal) : Except Unit JVal :=
  match pyIndex body "data" with
  | .ok d => pyIndex d "token"
  | .error _ => .error ()

/-- Embeds `Authentication.login`'s handling of the HTTP response: HTTP 403 raises
`AuthenticationFailed(message)`, any other non-200 status raises
`UnexceptedResponseCode(status, message)`, a 200 body without `data.token`
raises `BadResponse(message)`, and a 200 body with `data.token` stores the
token into the context.  Returns the (possibly updated) context and the
outcome; on every error the context is returned as it was. -/
def loginRun (ctx : Context) (resp : HttpResponse) : Context × Except Err Unit :=
  if resp.status = 403 then
    match msgOf resp.body with
    | .ok m => (ctx, .error (.authenticationFailed m))
    | .error e => (ctx, .error e)
  else if resp.status ≠ 200 then
    match msgOf resp.body with
    | .ok m => (ctx, .error (.unexceptedResponseCode resp.status m))
    | .error e => (ctx, .error e)
  else
    match tokenLookup resp.body with
    | .ok tok => ({ ctx with auth_token := some tok }, .ok ())
    | .error _ =>
      match msgOf resp.body with
      | .ok m => (ctx, .error (.badResponse m))
      | .error e => (ctx, .error e)

/-- The request `Authentication.logout` issues: `GET /api/auth/logout` with
the raw stored token as the `Authorization` header value. -/
def logoutRequest (token : String) : HttpRequest :=
  { method := "GET", path := "/api/auth/logout",
    headers := [("Authorization", token)], jsonBody := none }

/-- Embeds `Authentication.logout`: returns immediately (no request) when no truthy
token is held or when the decoded token's `exp` is already in the past
(`time.time() > token.exp`); otherwise issues the logout request and maps
its status (401 → `AuthenticationFailed`, other non-200 →
`UnexceptedResponseCode`).  The result pairs the list of requests actually
issued with the outcome; the context itself is never modified here (the
token is cleared by `Client.logout`). -/
def authLogout (ctx : Context) (now : Int) (resp : HttpResponse) :
    List HttpRequest × Except Err Context :=
  match ctx.auth_token with
  | none => ([], .ok ctx)
  | some tv =>
    if pyTruthy tv = false then ([], .ok ctx)
    else
      match tv with
      | .str s =>
        match decodeToken s with
        | .error e => ([], .error e)
        | .ok pl =>
          if pl.exp < now then ([], .ok ctx)
          else
            let issued := [logoutRequest s]
            if resp.status = 401 then (issued, .error (.authenticationFailed (.str "Unauthorized")))
            else if resp.status ≠ 200 then
              match msgOf resp.body with
              | .ok m => (issued, .error (.unexceptedResponseCode resp.status m))
              | .error e => (issued, .error e)
            else (issued, .ok ctx)
      | _ => ([], .error .pyError)

/-- Embeds `Client.logout` (src/openlist/__init__.py): runs `Authentication.logout`
and then sets `context.auth_token = None`; an error from the inner logout
propagates before the token is cleared. -/
def clientLogout (ctx : Context) (now : Int) (resp : HttpResponse) :
    List HttpRequest × Except Err Context :=
  match authLogout ctx now resp with
  | (calls, .ok c1) => (calls, .ok { c1 with auth_token := none })
  | (calls, .error e) => (calls, .error e)

/-- Modelled from the spec: `is_authenticated` of the Session contract
(§4.3), which has no counterpart under the sources: true iff a token is
held and its decoded expiry is in the future. -/
def isAuthenticated (ctx : Context) (now : Int) : Bool :=
  match ctx.auth_token with
  | some (.str s) =>
    match decodeToken s with
    | .ok pl => decide (now < pl.exp)
    | .error _ => false
  | _ => false

/-! ## Admin endpoints (src/openlist/core/admin.py)

Each builder produces the request its method issues, given the stored
token.  The real methods read `context.auth_token` and hand it to `httpx`
as the `Authorization` header value; `httpx` rejects a missing or
non-string header value, so the builders take the token string. -/

/-- Embeds `UserMe.me`: `GET /api/me`. -/
def meRequest (token : String) : HttpRequest :=
  { method := "GET", path := "/api/me", headers := [("Authorization", token)], jsonBody := none }

/-- The username `UserMe.update` puts into its payload:
`username or decode_token(...).username` — a falsy (`None` or empty)
username argument is replaced by the decoded token's username, which can
fail with `MalformedToken`. -/
def resolveUpdateUsername (token : String) (username : Option String) : Except Err String :=
  match username with
  | some u => if u ≠ "" then .ok u else (decodeToken token).map (·.username)
  | none => (decodeToken token).map (·.username)

/-- Embeds `UserMe.update`: `POST /api/me/update`. -/
def updateRequest (token : String) (username password sso_id : Option String) :
    Except Err HttpRequest :=
  match resolveUpdateUsername token username with
  | .error e => .error e
  | .ok u =>
    .ok { method := "POST", path := "/api/me/update",
          headers := [("Authorization", token)],
          jsonBody := some (.obj [("username", .str u),
                                  ("password", .str (password.getD "")),
                                  ("sso_id", .str (sso_id.getD ""))]) }

/-- Embeds `MySSHKey.add`: `POST /api/me/sshkey/add`. -/
def sshkeyAddRequest (token name public_key : String) : HttpRequest :=
  { method := "POST", path := "/api/me/sshkey/add",
    headers := [("Authorization", token)],
    jsonBody := some (.obj [("name", .str name), ("public_key", .str public_key)]) }

/-- Embeds `MySSHKey.delete`: `POST /api/me/sshkey/delete`. -/
def sshkeyDeleteRequest (token : String) (id : Int) : HttpRequest :=
  { method := "POST", path := "/api/me/sshkey/delete",
    headers := [("Authorization", token)],
    jsonBody := some (.obj [("id", .num id)]) }

/-- Embeds `MySSHKey.list`: `GET /api/me/sshkey/list`. -/
def sshkeyListRequest (token : String) : HttpRequest :=
  { method := "GET", path := "/api/me/sshkey/list",
    headers := [("Authorization", token)], jsonBody := none }

/-- First binding of a header name in a header list. -/
def lookupHeader : List (String × String) → String → Option String
  | [], _ => none
  | (k', v) :: rest, k => if k' = k then some v else lookupHeader rest k

/-- Value of the `Authorization` header of a request. -/
def authHeaderVal (r : HttpRequest) : Option String :=
  lookupHeader r.headers "Authorization"

/-- A well-formed three-segment token whose claim set is
`exp = 1, iat = 0, nbf = 0, username = "u", pwd_ts = 0` (the middle segment
is the base64url encoding of that claim set's JSON). -/
def sampleToken : String :=
  "header.eyJleHAiOjEsImlhdCI6MCwibmJmIjowLCJ1c2VybmFtZSI6InUiLCJwd2RfdHMiOjB9.sig"

/-- The user record of `data_types.UserInfo`. -/
structure UserInfo where
  id : Int
  username : String
  password : String
  base_path : String
  role : Int
  disabled : Bool
  permission : Int
  sso_id : String
  otp : Bool
  deriving Repr

/-- Boolean field of a JSON object. -/
def getBoolField (fields : List (String × JVal)) (k : String) : Option Bool :=
  match jfind fields k with
  | some (.bool b) => some b
  | _ => none

/-- Embeds `UserInfo(**data)`: pydantic validation of the `data` object into a
`UserInfo` record. -/
def parseUserInfo (v : JVal) : Option UserInfo :=
  match v with
  | .obj fields => do
    let i ← getIntField fields "id"
    let u ← getStrField fields "username"
    let pw ← getStrField fields "password"
    let bp ← getStrField fields "base_path"
    let r ← getIntField fields "role"
    let d ← getBoolField fields "disabled"
    let pm ← getIntField fields "permission"
    let s ← getStrField fields "sso_id"
    let o ← getBoolField fields "otp"
    some ⟨i, u, pw, bp, r, d, pm, s, o⟩
  | _ => none

/-- Embeds `UserMe.me`'s handling of the HTTP response: HTTP 401 raises
`AuthenticationFailed("Unauthorized")` before the body is touched; any other
non-200 status raises `UnexceptedResponseCode(status, message)`; on 200 the
envelope's `code` is read (`KeyError`/`TypeError` are caught and re-raised
as `BadResponse(message)`), a `code != 200` raises `BadResponse(message)`,
and otherwise `data` is validated into a `UserInfo` (a pydantic validation
failure escapes uncaught). -/
def meStep (resp : HttpResponse) : Except Err UserInfo :=
  if resp.status = 401 then .error (.authenticationFailed (.str "Unauthorized"))
  else if resp.status ≠ 200 then
    match msgOf resp.body with
    | .ok m => .error (.unexceptedResponseCode resp.status m)
    | .error e => .error e
  else
    match pyIndex resp.body "code" with
    | .error _ =>
      match msgOf resp.body with
      | .ok m => .error (.badResponse m)
      | .error e => .error e
    | .ok c =>
      match c with
      | .num 200 =>
        match pyIndex resp.body "data" with
        | .error _ =>
          match msgOf resp.body with
          | .ok m => .error (.badResponse m)
          | .error e => .error e
        | .ok d =>
          match d with
          | .obj fs =>
            match parseUserInfo (.obj fs) with
            | some u => .ok u
            | none => .error .pyError
          | _ =>
            match msgOf resp.body with
            | .ok m => .error (.badResponse m)
            | .error e => .error e
      | _ =>
        match msgOf resp.body with
        | .ok m => .error (.badResponse m)
        | .error e => .error e

/-! ## Request Dispatcher and FileSystem (src/openlist/core/file.py) -/

/-- Modelled from the spec: `BaseService._post` of `openlist/core/base.py`,
which `FileSystem` inherits but which is absent from the sources.  It
follows the dispatcher's response interpretation order (§4.4): HTTP 401 →
`AuthenticationFailed`; other non-200 HTTP status →
`UnexceptedResponseCode(status, message-from-body-if-present)`; HTTP 200
with envelope `code != 200` (or an envelope missing `code`) →
`BadResponse(message)`.  Per its callers in src/openlist/core/file.py
(`response.get("data", {})` on the result) a successful call yields the
parsed envelope. -/
def dispatchPost (resp : HttpResponse) : Except Err JVal :=
  if resp.status = 401 then .error (.authenticationFailed (.str "Unauthorized"))
  else if resp.status ≠ 200 then
    .error (.unexceptedResponseCode resp.status
      (match resp.body with
       | .obj fields => jgetD fields "message" (.str "Unknown error")
       | _ => .str "Unknown error"))
  else
    match resp.body with
    | .obj fields =>
      match jfind fields "code" with
      | some (.num 200) => .ok resp.body
      | _ => .error (.badResponse (jgetD fields "message" (.str "Unknown error")))
    | _ => .error (.badResponse (.str "Unknown error"))

/-- Python `str(e).lower()` for the single-argument exceptions raised by the
dispatcher; envelope messages are strings. -/
def errText (m : JVal) : String :=
  match m with
  | .str s => s
  | _ => ""

/-- The `exist_ok` test of `FileSystem.makedirs`:
`"exist" in str(e).lower() or "already" in str(e).lower()`. -/
def indicatesExists (m : JVal) : Bool :=
  strContains (strLower (errText m)) "exist" || strContains (strLower (errText m)) "already"

/-- The JSON body `FileSystem.makedirs` POSTs to `/api/fs/mkdir`. -/
def mkdirPayload (path : String) : JVal := .obj [("path", .str path)]

/-- Embeds `FileSystem.makedirs(path, exist_ok)`: posts the mkdir payload
`{"path": path}`; a `BadResponse` whose text contains `"exist"` or
`"already"` (case-insensitively) is swallowed when `exist_ok` is set, every
other outcome propagates.  The result pairs the payload sent with the
outcome. -/
def makedirs (path : String) (exist_ok : Bool) (resp : HttpResponse) : JVal × Except Err Unit :=
  (mkdirPayload path,
   match dispatchPost resp with
   | .ok _ => .ok ()
   | .error e =>
     match e with
     | .badResponse m =>
       if exist_ok && indicatesExists m then .ok () else .error (.badResponse m)
     | _ => .error e)

/-- The JSON body `FileSystem.remove` sends to `/api/fs/remove`. -/
structure RemovePayload where
  dir : String
  names : List String
  deriving Repr

/-- Embeds `FileSystem.remove(path, *names)` payload construction
(src/openlist/core/file.py): with names given, `path` is the directory and
`names` the batch; with no names, the directory and single name are split
out of `path` with `posixpath.dirname`/`posixpath.basename`. -/
def removePayload (path : String) (names : List String) : RemovePayload :=
  if names.isEmpty then
    { dir := posixDirname path, names := [posixBasename path] }
  else
    { dir := path, names := names }

/-! ## CLI path helper (src/openlist/cli/commands/file.py) -/

/-- Embeds `posixpath.join(a, b)` for two arguments (CPython): an absolute second
part replaces the first; otherwise the parts are joined with a single
separator unless the first is empty or already ends in one. -/
def posixJoin (a b : String) : String :=
  if strStarts b "/" then b
  else if a = "" ∨ strEnds a "/" then a ++ b
  else a ++ "/" ++ b

/-- The component fold of CPython's `posixpath.normpath`: drop empty and
`"."` components; a `".."` is appended when at the start of a relative
path or on top of another `".."`, and otherwise pops the previous
component. -/
def normpathComps (initialSlashes : Nat) (comps : List (List Char)) : List (List Char) :=
  comps.foldl
    (fun acc comp =>
      if comp = [] ∨ comp = ['.'] then acc
      else if comp ≠ ['.', '.'] ∨ (initialSlashes = 0 ∧ acc = [])
              ∨ (acc ≠ [] ∧ acc.getLast? = some ['.', '.']) then
        acc ++ [comp]
      else if acc ≠ [] then acc.dropLast
      else acc)
    []

/-- Join components with `'/'` (Python `'/'.join`). -/
def joinSlash : List (List Char) → List Char
  | [] => []
  | [g] => g
  | g :: g2 :: rest => g ++ '/' :: joinSlash (g2 :: rest)

/-- Embeds `posixpath.normpath` (CPython): collapses `"."`, `".."` and repeated
separators, preserving the POSIX double-slash special case, with `"."` for
an empty result. -/
def posixNormpath (path : String) : String :=
  if path = "" then "."
  else
    let initialSlashes : Nat :=
      if strStarts path "/" then
        (if strStarts path "//" ∧ ¬ strStarts path "///" then 2 else 1)
      else 0
    let comps := normpathComps initialSlashes (splitCharsOn '/' path.data)
    let joined := List.replicate initialSlashes '/' ++ joinSlash comps
    if joined = [] then "." else String.mk joined

/-- Embeds `normalize_path(current_path, relative_path)` of the CLI file commands:
joins, normalizes, and prefixes `"/"` when the normalized result is not
already absolute. -/
def normalizePath (current_path relative_path : String) : String :=
  let newPath := posixNormpath (posixJoin current_path relative_path)
  if strStarts newPath "/" then newPath else "/" ++ newPath

/-- The sixteen lowercase hexadecimal digit characters, generated from the
code points of `'0'` and `'a'`. -/
def hexChars : List Char :=
  (List.range 10).map (fun i => Char.ofNat (48 + i))
    ++ (List.range 6).map (fun i => Char.ofNat (97 + i))

/-! # Theorems -/

theorem hexDigit_mem (n : Nat) (h : n < 16) : hexDigit n ∈ hexChars := by
  interval_cases n <;> decide

theorem wordHex_mem (w : Nat) : ∀ c ∈ wordHex w, c ∈ hexChars := by
  intro c hc
  simp only [wordHex, List.mem_cons, List.not_mem_nil, or_false] at hc
  rcases hc with h | h | h | h | h | h | h | h <;>
    (subst h; exact hexDigit_mem _ (Nat.mod_lt _ (by norm_num)))

theorem foldr_wordHex_mem (ws : List Nat) :
    ∀ c ∈ ws.foldr (fun w acc => wordHex w ++ acc) [], c ∈ hexChars := by
  induction ws with
  | nil => simp
  | cons w ws ih =>
    intro c hc
    rw [List.foldr_cons, List.mem_append] at hc
    rcases hc with h | h
    · exact wordHex_mem w c h
    · exact ih c h

theorem foldr_wordHex_length (ws : List Nat) :
    (ws.foldr (fun w acc => wordHex w ++ acc) []).length = 8 * ws.length := by
  induction ws with
  | nil => simp
  | cons w ws ih =>
    rw [List.foldr_cons, List.length_append, ih]
    have h8 : (wordHex w).length = 8 := rfl
    rw [h8]
    simp [List.length_cons]
    ring

theorem sha256Hex_length (msg : List Nat) : (sha256Hex msg).length = 64 := by
  show ((sha256Words msg).foldr (fun w acc => wordHex w ++ acc) []).length = 64
  rw [foldr_wordHex_length]
  rfl

theorem sha256Hex_chars (msg : List Nat) : ∀ c ∈ (sha256Hex msg).data, c ∈ hexChars :=
  foldr_wordHex_mem (sha256Words msg)

/-- FIPS 180-4 test vector: digest of the empty message. -/
theorem sha256Hex_empty_vector :
    sha256Hex [] = "e3b0c44298fc1c149afbf4c8996fb92427ae41e4649b934ca495991b7852b855" := by
  decide

/-- FIPS 180-4 test vector: digest of `"abc"`. -/
theorem sha256Hex_abc_vector :
    sha256Hex (utf8Bytes "abc") =
      "ba7816bf8f01cfea414140de5dae2223b00361a396177a9cb410ff61f20015ad" := by
  decide

/-- C5: For every password string `p`, the password field sent in the login
payload equals the lowercase hexadecimal SHA-256 digest of the UTF-8 bytes
of `p ++ "-" ++ STATIC_HASH_SALT`; the hash depends only on `p` (not on the
username or OTP argument) and is 64 lowercase hexadecimal characters long. -/
theorem c5_login_password_hash (u p : String) (otp : Option String) :
    (loginPayload u p otp).password = sha256Hex (utf8Bytes (p ++ "-" ++ STATIC_HASH_SALT))
    ∧ (∀ (u' : String) (otp' : Option String),
        (loginPayload u' p otp').password = (loginPayload u p otp).password)
    ∧ (loginPayload u p otp).password.length = 64
    ∧ (∀ c ∈ (loginPayload u p otp).password.data, c ∈ hexChars) := by
  refine ⟨rfl, fun u' otp' => rfl, sha256Hex_length _, ?_⟩
  intro c hc
  exact sha256Hex_chars _ c hc

/-- Witness for C5 at concrete inputs (the digest itself checked against
`hashlib.sha256`). -/
theorem c5_login_password_hash_witness :
    (loginPayload "admin" "test" none).password.length = 64
    ∧ (loginPayload "x" "test" (some "000000")).password = (loginPayload "admin" "test" none).password
    ∧ '2' ∈ hexChars :=
  ⟨(c5_login_password_hash "admin" "test" none).2.2.1,
   (c5_login_password_hash "admin" "test" none).2.1 "x" (some "000000"),
   (c5_login_password_hash "admin" "test" none).2.2.2 '2' (by decide)⟩

/-- The hashed password of `"test"`, checked against `hashlib.sha256`. -/
theorem hashedPassword_test_vector :
    hashedPassword "test" = "22fb9724977246a46cfd01bb3b9d2a8db6e27846ecc08488cb3523e43b1f4940" := by
  decide

/-- C6: `remove` normalizes both call shapes to one payload: an explicit
directory with a non-empty name list is sent as-is, and a single full path
is split with `posixpath.dirname`/`posixpath.basename`; in particular
`remove("/d/a.txt")` sends `{"dir": "/d", "names": ["a.txt"]}` and
`remove("/d", "a.txt", "b.txt")` sends
`{"dir": "/d", "names": ["a.txt", "b.txt"]}`. -/
theorem c6_remove_two_shapes :
    (∀ (d n : String) (ns : List String), removePayload d (n :: ns) = ⟨d, n :: ns⟩)
    ∧ (∀ p : String, removePayload p [] = ⟨posixDirname p, [posixBasename p]⟩)
    ∧ removePayload "/d/a.txt" [] = ⟨"/d", ["a.txt"]⟩
    ∧ removePayload "/d" ["a.txt", "b.txt"] = ⟨"/d", ["a.txt", "b.txt"]⟩ :=
  ⟨fun _ _ _ => rfl, fun _ => rfl, rfl, rfl⟩

theorem slash_append_starts (n : String) : strStarts ("/" ++ n) "/" = true := by
  unfold strStarts
  rw [String.data_append]
  have h1 : ("/" : String).data = ['/'] := rfl
  rw [h1]
  simp [List.isPrefixOf]

/-- C10: `normalize_path` joins the two paths, resolves `"."` and `".."`
via `posixpath.normpath`, prefixes `"/"` whenever the normalized result is
not already absolute, and therefore always returns a path that starts with
`"/"`. -/
theorem c10_normalize_path (c r : String) :
    normalizePath c r =
      (if strStarts (posixNormpath (posixJoin c r)) "/" then posixNormpath (posixJoin c r)
       else "/" ++ posixNormpath (posixJoin c r))
    ∧ strStarts (normalizePath c r) "/" = true
    ∧ normalizePath "/docs" "../x/./y" = "/x/y" := by
  refine ⟨rfl, ?_, by decide⟩
  unfold normalizePath
  by_cases h : strStarts (posixNormpath (posixJoin c r)) "/" = true
  · simp [h]
  · simp only [Bool.not_eq_true] at h
    simp only [h, Bool.false_eq_true, if_false]
    exact slash_append_starts _

/-! ## Login claims -/

/-- C2: `login` behaves by response as follows: HTTP 403 raises
`AuthenticationFailed`; any other non-200 status raises
`UnexceptedResponseCode` with that status and the body's message; a 200
response whose body lacks `data.token` raises `BadResponse`; a 200 response
with `data.token` present stores that token as the session's auth token. -/
theorem c2_login_response_handling :
    (∀ (ctx : Context) (fields : List (String × JVal)),
        loginRun ctx ⟨403, .obj fields⟩ =
          (ctx, .error (.authenticationFailed (jgetD fields "message" (.str "Unknown error")))))
    ∧ (∀ (ctx : Context) (st : Nat) (fields : List (String × JVal)), st ≠ 403 → st ≠ 200 →
        loginRun ctx ⟨st, .obj fields⟩ =
          (ctx, .error (.unexceptedResponseCode st (jgetD fields "message" (.str "Unknown error")))))
    ∧ (∀ (ctx : Context) (fields : List (String × JVal)), tokenLookup (.obj fields) = .error () →
        loginRun ctx ⟨200, .obj fields⟩ =
          (ctx, .error (.badResponse (jgetD fields "message" (.str "Unknown error")))))
    ∧ (∀ (ctx : Context) (body tok : JVal), tokenLookup body = .ok tok →
        loginRun ctx ⟨200, body⟩ = ({ ctx with auth_token := some tok }, .ok ())) := by
  refine ⟨fun ctx fields => rfl, ?_, ?_, ?_⟩
  · intro ctx st fields h403 h200
    simp [loginRun, h403, h200, msgOf]
  · intro ctx fields hlk
    simp [loginRun, hlk, msgOf]
  · intro ctx body tok hlk
    simp [loginRun, hlk]

/-- Witness for C2 at concrete inputs. -/
theorem c2_login_response_handling_witness :
    loginRun ⟨"https://host", none⟩ ⟨500, .obj [("message", .str "boom")]⟩ =
      (⟨"https://host", none⟩, .error (.unexceptedResponseCode 500 (.str "boom")))
    ∧ loginRun ⟨"https://host", none⟩ ⟨200, .obj [("code", .num 200), ("message", .str ""), ("data", .obj [])]⟩ =
      (⟨"https://host", none⟩, .error (.badResponse (.str "")))
    ∧ loginRun ⟨"https://host", none⟩
        ⟨200, .obj [("code", .num 200), ("data", .obj [("token", .str "tok123")])]⟩ =
      (⟨"https://host", some (.str "tok123")⟩, .ok ()) :=
  ⟨c2_login_response_handling.2.1 ⟨"https://host", none⟩ 500 [("message", .str "boom")]
     (by decide) (by decide),
   c2_login_response_handling.2.2.1 ⟨"https://host", none⟩
     [("code", .num 200), ("message", .str ""), ("data", .obj [])] rfl,
   c2_login_response_handling.2.2.2 ⟨"https://host", none⟩
     (.obj [("code", .num 200), ("data", .obj [("token", .str "tok123")])]) (.str "tok123") rfl⟩

/-- C9: `login` is atomic with respect to the session's token: whenever the
response handling ends in an error, the context — in particular the stored
auth token — is exactly what it was before the call. -/
theorem c9_login_atomic (ctx : Context) (resp : HttpResponse) (e : Err) :
    (loginRun ctx resp).2 = .error e → (loginRun ctx resp).1 = ctx := by
  unfold loginRun
  repeat' split
  all_goals intro h
  all_goals simp_all

/-- Witness for C9: a failed re-login (bad response body) preserves a
previously held token. -/
theorem c9_login_atomic_witness :
    (loginRun ⟨"https://host", some (.str "oldtok")⟩ ⟨200, .obj [("code", .num 500)]⟩).1 =
      ⟨"https://host", some (.str "oldtok")⟩ :=
  c9_login_atomic ⟨"https://host", some (.str "oldtok")⟩ ⟨200, .obj [("code", .num 500)]⟩
    (.badResponse (.str "Unknown error")) rfl

/-! ## Logout claims -/

theorem clientLogout_ok_none (ctx : Context) (now : Int) (resp : HttpResponse)
    (calls : List HttpRequest) (ctx' : Context)
    (h : clientLogout ctx now resp = (calls, .ok ctx')) : ctx'.auth_token = none := by
  unfold clientLogout at h
  rcases hA : authLogout ctx now resp with ⟨calls1, res⟩
  rw [hA] at h
  cases res with
  | ok c1 =>
    simp only [Prod.mk.injEq] at h
    obtain ⟨-, h2⟩ := h
    cases h2
    rfl
  | error e => simp at h

theorem logout_noop_of_none (ctx : Context) (now : Int) (resp : HttpResponse)
    (h : ctx.auth_token = none) :
    authLogout ctx now resp = ([], .ok ctx) ∧ clientLogout ctx now resp = ([], .ok ctx) := by
  obtain ⟨b, t⟩ := ctx
  simp only [Context.mk.injEq] at h ⊢
  cases show t = none from h
  exact ⟨rfl, rfl⟩

/-- C3: after any `Client.logout` call that returns without raising
(including the no-op cases), the session holds no token. -/
theorem c3_logout_clears_token (ctx : Context) (now : Int) (resp : HttpResponse)
    (calls : List HttpRequest) (ctx' : Context) :
    clientLogout ctx now resp = (calls, .ok ctx') → ctx'.auth_token = none :=
  clientLogout_ok_none ctx now resp calls ctx'

/-- Witness for C3: a non-expired-token logout against a 200 response ends
with the token cleared. -/
theorem c3_logout_clears_token_witness :
    (Context.mk "https://host" none).auth_token = none :=
  c3_logout_clears_token ⟨"https://host", some (.str sampleToken)⟩ 0 ⟨200, .obj []⟩
    [logoutRequest sampleToken] ⟨"https://host", none⟩ rfl

/-- C4: `logout` with no held token, or with a held token whose decoded
`exp` lies in the past, issues no network call and leaves the session state
unchanged (`Authentication.logout` leaves the context untouched, and the
authenticated/unauthenticated state survives `Client.logout`'s clearing of
the token); moreover a second consecutive `logout` right after a successful
one issues no network call. -/
theorem c4_logout_noop_cases :
    (∀ (ctx : Context) (now : Int) (resp : HttpResponse), ctx.auth_token = none →
        authLogout ctx now resp = ([], .ok ctx) ∧ clientLogout ctx now resp = ([], .ok ctx))
    ∧ (∀ (ctx : Context) (now : Int) (resp : HttpResponse) (s : String) (pl : TokenPayload),
        ctx.auth_token = some (.str s) → decodeToken s = .ok pl → pl.exp < now →
        authLogout ctx now resp = ([], .ok ctx)
        ∧ clientLogout ctx now resp = ([], .ok { ctx with auth_token := none })
        ∧ isAuthenticated { ctx with auth_token := none } now = isAuthenticated ctx now)
    ∧ (∀ (ctx ctx' : Context) (now now' : Int) (resp resp' : HttpResponse)
          (calls : List HttpRequest),
        clientLogout ctx now resp = (calls, .ok ctx') →
        clientLogout ctx' now' resp' = ([], .ok ctx')) := by
  refine ⟨fun ctx now resp h => logout_noop_of_none ctx now resp h, ?_, ?_⟩
  · intro ctx now resp s pl htok hdec hexp
    obtain ⟨b, t⟩ := ctx
    cases show t = some (.str s) from htok
    by_cases hs : s = ""
    · subst hs
      refine ⟨rfl, rfl, ?_⟩
      rfl
    · have htr : pyTruthy (.str s) = true := by simp [pyTruthy, hs]
      have hA : authLogout ⟨b, some (.str s)⟩ now resp = ([], .ok ⟨b, some (.str s)⟩) := by
        unfold authLogout
        simp [htr, hdec, hexp]
      refine ⟨hA, ?_, ?_⟩
      · unfold clientLogout
        rw [hA]
      · have hna : isAuthenticated ⟨b, some (.str s)⟩ now = false := by
          unfold isAuthenticated
          simp [hdec, decide_eq_false (lt_asymm hexp)]
        show isAuthenticated ⟨b, none⟩ now = isAuthenticated ⟨b, some (.str s)⟩ now
        exact (rfl : isAuthenticated ⟨b, none⟩ now = false).trans hna.symm
  · intro ctx ctx' now now' resp resp' calls h
    have hn : ctx'.auth_token = none := clientLogout_ok_none ctx now resp calls ctx' h
    exact (logout_noop_of_none ctx' now' resp' hn).2

/-- Witness for C4 at concrete inputs: no token held; an expired concrete
token (`exp = 1` at `now = 100`); and a double logout. -/
theorem c4_logout_noop_cases_witness :
    authLogout ⟨"https://host", none⟩ 0 ⟨200, .obj []⟩ = ([], .ok ⟨"https://host", none⟩)
    ∧ authLogout ⟨"https://host", some (.str sampleToken)⟩ 100 ⟨200, .obj []⟩ =
        ([], .ok ⟨"https://host", some (.str sampleToken)⟩)
    ∧ clientLogout ⟨"https://host", some (.str sampleToken)⟩ 100 ⟨200, .obj []⟩ =
        ([], .ok ⟨"https://host", none⟩)
    ∧ clientLogout ⟨"https://host", none⟩ 0 ⟨200, .obj []⟩ = ([], .ok ⟨"https://host", none⟩) :=
  ⟨(c4_logout_noop_cases.1 ⟨"https://host", none⟩ 0 ⟨200, .obj []⟩ rfl).1,
   (c4_logout_noop_cases.2.1 ⟨"https://host", some (.str sampleToken)⟩ 100 ⟨200, .obj []⟩
      sampleToken ⟨1, 0, 0, "u", 0⟩ rfl rfl (by decide)).1,
   (c4_logout_noop_cases.2.1 ⟨"https://host", some (.str sampleToken)⟩ 100 ⟨200, .obj []⟩
      sampleToken ⟨1, 0, 0, "u", 0⟩ rfl rfl (by decide)).2.1,
   c4_logout_noop_cases.2.2 ⟨"https://host", some (.str sampleToken)⟩ ⟨"https://host", none⟩
      100 0 ⟨200, .obj []⟩ ⟨200, .obj []⟩ [] rfl⟩

/-! ## Authenticated-call claims -/

/-- C1: `UserMe.me` interprets the response in this order: HTTP 401 raises
`AuthenticationFailed` regardless of the body; any other non-200 status
raises `UnexceptedResponseCode` with the status and the body's message; an
HTTP 200 whose envelope `code` differs from 200 raises `BadResponse` with
the envelope message; an HTTP 200 whose envelope `code` is 200 returns the
envelope's `data` field unwrapped and typed as `UserInfo`. -/
theorem c1_me_response_order :
    (∀ body : JVal, meStep ⟨401, body⟩ = .error (.authenticationFailed (.str "Unauthorized")))
    ∧ (∀ (st : Nat) (fields : List (String × JVal)), st ≠ 401 → st ≠ 200 →
        meStep ⟨st, .obj fields⟩ =
          .error (.unexceptedResponseCode st (jgetD fields "message" (.str "Unknown error"))))
    ∧ (∀ (fields : List (String × JVal)) (n : Int),
        jfind fields "code" = some (.num n) → n ≠ 200 →
        meStep ⟨200, .obj fields⟩ =
          .error (.badResponse (jgetD fields "message" (.str "Unknown error"))))
    ∧ (∀ (fields dataFields : List (String × JVal)) (u : UserInfo),
        jfind fields "code" = some (.num 200) → jfind fields "data" = some (.obj dataFields) →
        parseUserInfo (.obj dataFields) = some u →
        meStep ⟨200, .obj fields⟩ = .ok u) := by
  refine ⟨fun body => rfl, ?_, ?_, ?_⟩
  · intro st fields h401 h200
    simp [meStep, h401, h200, msgOf]
  · intro fields n hfind hn
    simp only [meStep, pyIndex, hfind]
    norm_num
    split
    next heq => exact absurd (by injection heq) hn
    next => simp [msgOf]
  · intro fields dataFields u hcode hdata hparse
    simp [meStep, pyIndex, hcode, hdata, hparse]

/-- Witness for C1 at concrete inputs: a 500 status, an envelope with
`code = 500`, and a full success envelope. -/
theorem c1_me_response_order_witness :
    meStep ⟨401, .arr []⟩ = .error (.authenticationFailed (.str "Unauthorized"))
    ∧ meStep ⟨500, .obj [("message", .str "boom")]⟩ =
        .error (.unexceptedResponseCode 500 (.str "boom"))
    ∧ meStep ⟨200, .obj [("code", .num 500), ("message", .str "storage failed")]⟩ =
        .error (.badResponse (.str "storage failed"))
    ∧ meStep ⟨200, .obj [("code", .num 200),
        ("data", .obj [("id", .num 1), ("username", .str "admin"), ("password", .str ""),
                       ("base_path", .str "/"), ("role", .num 2), ("disabled", .bool false),
                       ("permission", .num 0), ("sso_id", .str ""), ("otp", .bool false)])]⟩ =
        .ok ⟨1, "admin", "", "/", 2, false, 0, "", false⟩ :=
  ⟨c1_me_response_order.1 (.arr []),
   c1_me_response_order.2.1 500 [("message", .str "boom")] (by decide) (by decide),
   c1_me_response_order.2.2.1 [("code", .num 500), ("message", .str "storage failed")] 500
     rfl (by decide),
   c1_me_response_order.2.2.2 [("code", .num 200),
        ("data", .obj [("id", .num 1), ("username", .str "admin"), ("password", .str ""),
                       ("base_path", .str "/"), ("role", .num 2), ("disabled", .bool false),
                       ("permission", .num 0), ("sso_id", .str ""), ("otp", .bool false)])]
     [("id", .num 1), ("username", .str "admin"), ("password", .str ""),
      ("base_path", .str "/"), ("role", .num 2), ("disabled", .bool false),
      ("permission", .num 0), ("sso_id", .str ""), ("otp", .bool false)]
     ⟨1, "admin", "", "/", 2, false, 0, "", false⟩ rfl rfl rfl⟩

/-- C7: `makedirs(path, exist_ok := true)` succeeds when the mkdir call
fails with a `BadResponse` whose message indicates the directory already
exists (for example the envelope `code: 500, message: "path already
exists"`), the same call with `exist_ok := false` re-raises that
`BadResponse`, and every other error propagates regardless of `exist_ok`. -/
theorem c7_makedirs_exist_ok :
    (∀ (path : String) (resp : HttpResponse) (m : JVal),
        dispatchPost resp = .error (.badResponse m) → indicatesExists m = true →
        (makedirs path true resp).2 = .ok ()
        ∧ (makedirs path false resp).2 = .error (.badResponse m))
    ∧ (∀ (path : String) (resp : HttpResponse) (m : JVal) (b : Bool),
        dispatchPost resp = .error (.badResponse m) → indicatesExists m = false →
        (makedirs path b resp).2 = .error (.badResponse m))
    ∧ (∀ (path : String) (resp : HttpResponse) (e : Err) (b : Bool),
        dispatchPost resp = .error e → (∀ m, e ≠ .badResponse m) →
        (makedirs path b resp).2 = .error e)
    ∧ (∀ path : String,
        (makedirs path true
          ⟨200, .obj [("code", .num 500), ("message", .str "path already exists")]⟩).2 = .ok ()
        ∧ (makedirs path false
            ⟨200, .obj [("code", .num 500), ("message", .str "path already exists")]⟩).2 =
          .error (.badResponse (.str "path already exists"))) := by
  refine ⟨?_, ?_, ?_, fun path => ⟨rfl, rfl⟩⟩
  · intro path resp m h hm
    constructor <;> simp [makedirs, h, hm]
  · intro path resp m b h hm
    simp [makedirs, h, hm]
  · intro path resp e b h hne
    cases e with
    | badResponse m => exact absurd rfl (hne m)
    | _ => simp [makedirs, h]

/-- Witness for C7: the already-exists stub and a 401 error. -/
theorem c7_makedirs_exist_ok_witness :
    (makedirs "/x" true
        ⟨200, .obj [("code", .num 500), ("message", .str "path already exists")]⟩).2 = .ok ()
    ∧ (makedirs "/x" false
        ⟨200, .obj [("code", .num 500), ("message", .str "path already exists")]⟩).2 =
      .error (.badResponse (.str "path already exists"))
    ∧ (makedirs "/x" true ⟨401, .obj []⟩).2 = .error (.authenticationFailed (.str "Unauthorized")) :=
  ⟨(c7_makedirs_exist_ok.1 "/x"
      ⟨200, .obj [("code", .num 500), ("message", .str "path already exists")]⟩
      (.str "path already exists") rfl rfl).1,
   (c7_makedirs_exist_ok.1 "/x"
      ⟨200, .obj [("code", .num 500), ("message", .str "path already exists")]⟩
      (.str "path already exists") rfl rfl).2,
   c7_makedirs_exist_ok.2.2.1 "/x" ⟨401, .obj []⟩ (.authenticationFailed (.str "Unauthorized"))
     true rfl (fun m h => by cases h)⟩

/-- C8: every authenticated request — logout, me, update, and SSH-key
add/delete/list — carries the `Authorization` header whose value is exactly
the raw stored token string, with no `"Bearer "` prefix or any other
decoration. -/
theorem c8_raw_authorization_header (tok name pk : String) (id : Int) :
    authHeaderVal (logoutRequest tok) = some tok
    ∧ authHeaderVal (meRequest tok) = some tok
    ∧ (∀ (uo pw sso : Option String) (r : HttpRequest),
        updateRequest tok uo pw sso = .ok r → authHeaderVal r = some tok)
    ∧ authHeaderVal (sshkeyAddRequest tok name pk) = some tok
    ∧ authHeaderVal (sshkeyDeleteRequest tok id) = some tok
    ∧ authHeaderVal (sshkeyListRequest tok) = some tok := by
  refine ⟨rfl, rfl, ?_, rfl, rfl, rfl⟩
  intro uo pw sso r h
  unfold updateRequest at h
  cases hres : resolveUpdateUsername tok uo with
  | error e =>
    rw [hres] at h
    exact Except.noConfusion h
  | ok u =>
    rw [hres] at h
    injection h with h2
    subst h2
    rfl

/-- Witness for C8: the update request built with an explicit username. -/
theorem c8_raw_authorization_header_witness :
    authHeaderVal ⟨"POST", "/api/me/update", [("Authorization", "tok123")],
      some (.obj [("username", .str "u"), ("password", .str ""), ("sso_id", .str "")])⟩ =
      some "tok123" :=
  (c8_raw_authorization_header "tok123" "" "" 0).2.2.1 (some "u") none none
    ⟨"POST", "/api/me/update", [("Authorization", "tok123")],
      some (.obj [("username", .str "u"), ("password", .str ""), ("sso_id", .str "")])⟩
    (by rfl)

end Openlist
